import Mathlib

/-!
Verification of the commodity-price-dashboard change-calculation core.

The development shallowly embeds the Python modules
`src/utils/helpers.py` (series utilities, reference-point locator, change
calculator, display formatter) and `src/data/data_validator.py`
(data-quality validator).  Calendar dates are modelled as integer day
numbers (`ℤ`, one unit = one day, matching the `.days` arithmetic used by
the source), prices as exact rationals (`ℚ`).  `datetime(year, 1, 1)` of a
date's year is supplied as an explicit `jan1` day-number parameter, with
the calendar fact `jan1 ≤ last_date` carried as a hypothesis where needed.
-/

/- Batteries marks the rational-number arithmetic operations
`@[irreducible]`, which blocks `decide`-based evaluation of the embedded
functions on concrete inputs; restore the usual reducibility locally. -/
attribute [local semireducible] Rat.add Rat.sub Rat.mul Rat.inv

namespace CommodityDash

/-- A row of the price dataframe: one observation `(Date, Price)`. -/
structure Point where
  date : ℤ
  price : ℚ
deriving DecidableEq, Repr

/-- Date ordering on rows, the sort key of `df.sort_values('Date')`. -/
def dateLE (a b : Point) : Prop := a.date ≤ b.date

instance : DecidableRel dateLE := fun a b => inferInstanceAs (Decidable (a.date ≤ b.date))

instance : IsTotal Point dateLE := ⟨fun a b => le_total a.date b.date⟩

instance : IsTrans Point dateLE := ⟨fun _ _ _ h1 h2 => le_trans h1 h2⟩

/-- `get_sorted_dataframe` (helpers.py lines 44-56): return the dataframe
unchanged when it has fewer than two rows, otherwise a copy sorted by
`Date`.  The source calls `df.sort_values('Date')` with the pandas
default `kind='quicksort'`, which pandas documents as not stable: the
relative order of rows with equal dates is unspecified library behaviour
that the repository's code does not determine.  The embedding therefore
fixes one admissible output order (a stable insertion sort by date);
every theorem proved over this definition consumes only the sorted
sequence of dates and row multiset, which agree under any admissible
tie order. -/
def get_sorted_dataframe (df : List Point) : List Point :=
  if df.length < 2 then df else df.insertionSort dateLE

/-- The `date_diffs` list of `get_date_frequency` (helpers.py lines
72-75): the source loop `for i in range(1, min(len(df), 10))` collects
`Date[i] - Date[i-1]` for `i = 1 .. min(len(df), 10) - 1`. -/
def dateDiffs (df : List Point) : List ℤ :=
  (List.range' 1 (min df.length 10 - 1)).map
    (fun i => (df.map Point.date).getD i 0 - (df.map Point.date).getD (i - 1) 0)

/-- `avg_diff = sum(date_diffs) / len(date_diffs)` (helpers.py line 80). -/
def avgDiff (df : List Point) : ℚ :=
  (((dateDiffs df).sum : ℤ) : ℚ) / ((dateDiffs df).length : ℚ)

/-- `get_date_frequency` (helpers.py lines 58-88): classify the sampling
frequency from the mean gap (in days) between consecutive dates. -/
def get_date_frequency (df : List Point) : String × ℚ :=
  if df.length < 2 then ("unknown", 30)
  else if dateDiffs df = [] then ("unknown", 30)
  else if avgDiff df < 3 then ("daily", avgDiff df)
  else if avgDiff df < 10 then ("weekly", avgDiff df)
  else ("monthly", avgDiff df)

/-- The index-loop form of the date gaps agrees with the
consecutive-pairs (`zipWith` with the tail) form. -/
lemma gaps_indexed_eq_zip (ds : List ℤ) (k : ℕ) (hk : k + 1 ≤ ds.length) :
    (List.range' 1 k).map (fun i => ds.getD i 0 - ds.getD (i - 1) 0)
      = (List.zipWith (fun a b => b - a) ds ds.tail).take k := by
  have hzlen : (List.zipWith (fun a b : ℤ => b - a) ds ds.tail).length = ds.length - 1 := by
    simp [List.length_zipWith]
  apply List.ext_getElem
  · rw [List.length_map, List.length_range', List.length_take, hzlen]
    omega
  · intro i hi1 hi2
    have hik : i < k := by simpa using hi1
    have hi_lt : i + 1 < ds.length := by omega
    simp only [List.getElem_map, List.getElem_take, List.getElem_zipWith,
      List.getElem_range'_1, List.getElem_tail]
    have e1 : 1 + i = i + 1 := by omega
    rw [e1]
    simp only [Nat.add_sub_cancel]
    rw [List.getD_eq_getElem ds 0 hi_lt,
      List.getD_eq_getElem ds 0 (show i < ds.length by omega)]

/-- For a series of at least 2 points, `get_date_frequency` returns the
mean gap together with the threshold classification (shared shape lemma). -/
lemma dateDiffs_ne_nil (df : List Point) (h2 : 2 ≤ df.length) : dateDiffs df ≠ [] := by
  have hlen : (dateDiffs df).length = min df.length 10 - 1 := by
    simp [dateDiffs]
  intro hcon
  rw [hcon] at hlen
  simp at hlen
  omega

lemma get_date_frequency_spec (df : List Point) (h2 : 2 ≤ df.length) :
    ∃ a : ℚ,
      get_date_frequency df =
        (if a < 3 then "daily" else if a < 10 then "weekly" else "monthly", a) := by
  have hnotlt : ¬ df.length < 2 := by omega
  unfold get_date_frequency
  rw [if_neg hnotlt, if_neg (dateDiffs_ne_nil df h2)]
  refine ⟨avgDiff df, ?_⟩
  split_ifs <;> rfl

/-- Series with mean gap exactly 10 (two points, 10 days apart). -/
def c4Ser10 : List Point := [⟨0, 1⟩, ⟨10, 1⟩]

/-- Eleven points: ten 1-day steps would be claimed, but the code only
examines nine gaps; the huge tenth gap is ignored. -/
def c4Ser11 : List Point :=
  [⟨0, 1⟩, ⟨1, 1⟩, ⟨2, 1⟩, ⟨3, 1⟩, ⟨4, 1⟩, ⟨5, 1⟩,
   ⟨6, 1⟩, ⟨7, 1⟩, ⟨8, 1⟩, ⟨9, 1⟩, ⟨1009, 1⟩]

/-- C4 counterexample: (a) a mean gap of exactly 10 days is classified
`monthly`, while the claim places 10 in the inclusive weekly band 3–10;
(b) on an 11-point series the code examines only the first 9 gaps, so it
answers `daily` with mean 1 even though the mean over the first 10
consecutive pairs exceeds 10 (which per the claim would force `monthly`). -/
theorem c4_counterexample :
    get_date_frequency c4Ser10 = ("monthly", 10) ∧
    get_date_frequency c4Ser11 = ("daily", 1) ∧
    (10 : ℚ) <
      (((List.zipWith (fun a b => b - a) (c4Ser11.map Point.date)
            (c4Ser11.map Point.date).tail).take 10).sum : ℤ) /
        (((List.zipWith (fun a b => b - a) (c4Ser11.map Point.date)
            (c4Ser11.map Point.date).tail).take 10).length : ℚ) := by
  refine ⟨by decide, by decide, by decide⟩

/-- C4 amended: frequency detection examines the gaps between up to the
first 9 consecutive pairs of points (indices `min(len, 10) - 1` pairs)
and classifies by the mean gap in days: mean < 3 yields `daily`,
3 ≤ mean < 10 yields `weekly`, mean ≥ 10 yields `monthly`; fewer than 2
points yields `(unknown, 30)`. -/
theorem c4_frequency (df : List Point) :
    (df.length < 2 → get_date_frequency df = ("unknown", 30)) ∧
    (2 ≤ df.length → ∀ gaps : List ℤ, ∀ a : ℚ,
      gaps = (List.zipWith (fun x y => y - x) (df.map Point.date)
          (df.map Point.date).tail).take (min df.length 10 - 1) →
      a = ((gaps.sum : ℤ) : ℚ) / (gaps.length : ℚ) →
      get_date_frequency df =
        (if a < 3 then "daily" else if a < 10 then "weekly" else "monthly", a)) := by
  constructor
  · intro h
    unfold get_date_frequency
    rw [if_pos h]
  · intro h2 gaps a hg ha
    have hbridge : dateDiffs df = gaps := by
      rw [hg]
      unfold dateDiffs
      exact gaps_indexed_eq_zip (df.map Point.date) (min df.length 10 - 1) (by simp; omega)
    have hnotlt : ¬ df.length < 2 := by omega
    have hav : avgDiff df = a := by
      rw [ha]
      unfold avgDiff
      rw [hbridge]
    unfold get_date_frequency
    rw [if_neg hnotlt, if_neg (dateDiffs_ne_nil df h2), hav]
    split_ifs <;> rfl

/-- C4 witness: the amended theorem evaluated on a singleton series and
on a two-point series with a 7-day gap. -/
theorem c4_witness :
    get_date_frequency [⟨0, 1⟩] = ("unknown", 30) ∧
    get_date_frequency [⟨0, 1⟩, ⟨7, 2⟩] = ("weekly", 7) := by
  refine ⟨(c4_frequency [⟨0, 1⟩]).1 (by decide), ?_⟩
  have h := (c4_frequency [⟨0, 1⟩, ⟨7, 2⟩]).2 (by decide) [7] 7 (by decide) (by decide)
  exact h.trans (by decide)

/-- `calc_price_change` (helpers.py lines 162-184): absolute and relative
change with the near-zero-reference guard
`if previous and abs(previous) > 0.0001`. -/
def calc_price_change (current previous : Option ℚ) : Option ℚ × Option ℚ :=
  match current, previous with
  | some c, some p =>
    if p ≠ 0 ∧ |p| > (1 : ℚ) / 10000 then (some (c - p), some ((c - p) / p))
    else (some (c - p), some 0)
  | _, _ => (none, none)

/-- C6 counterexample: at a reference price of exactly `1e-4` the code
clamps the percent change to 0, while the claim (`|ref| >= 1e-4` divides)
predicts the quotient, which is nonzero. -/
theorem c6_counterexample :
    calc_price_change (some 1) (some (1 / 10000)) = (some (9999 / 10000), some 0) ∧
    ((1 : ℚ) - 1 / 10000) / ((1 : ℚ) / 10000) ≠ 0 := by
  exact ⟨by decide, by decide⟩

/-- C6 amended: for non-null current and reference prices the absolute
change is `last - ref`, and the percent change is `abs_change / ref`
exactly when `|ref| > 1e-4` (strictly), and the clamp value 0 (not null)
exactly when `|ref| ≤ 1e-4`; in the exact-arithmetic model the result is
always a well-defined rational, never NaN or infinite. -/
theorem c6_calc_price_change (c p : ℚ) :
    calc_price_change (some c) (some p) =
      (some (c - p), some (if (1 : ℚ) / 10000 < |p| then (c - p) / p else 0)) := by
  simp only [calc_price_change]
  by_cases h : (1 : ℚ) / 10000 < |p|
  · have hp : p ≠ 0 := by
      intro hc
      rw [hc, abs_zero] at h
      norm_num at h
    rw [if_pos (show p ≠ 0 ∧ |p| > (1 : ℚ) / 10000 from ⟨hp, h⟩), if_pos h]
  · rw [if_neg (show ¬(p ≠ 0 ∧ |p| > (1 : ℚ) / 10000) from fun hc => h hc.2), if_neg h]

/-- `df[df['Date'] <= target]`: the rows dated on or before `target`. -/
def dfBefore (df : List Point) (target : ℤ) : List Point :=
  df.filter (fun p => decide (p.date ≤ target))

/-- First row of minimal `|Date - t|`; this is
`(frame['Date'] - t).abs().argmin()` followed by `frame.iloc[closest_idx]`
(pandas `argmin` returns the first index attaining the minimum). -/
def argminDist (l : List Point) (t : ℤ) : Option Point :=
  match l with
  | [] => none
  | p :: rest =>
    match argminDist rest t with
    | none => some p
    | some q => if |p.date - t| ≤ |q.date - t| then some p else some q

lemma argminDist_spec (t : ℤ) (l : List Point) (h : l ≠ []) :
    ∃ q, argminDist l t = some q ∧ q ∈ l ∧ ∀ r ∈ l, |q.date - t| ≤ |r.date - t| := by
  induction l with
  | nil => exact absurd rfl h
  | cons p rest ih =>
    by_cases hrest : rest = []
    · subst hrest
      refine ⟨p, rfl, List.mem_singleton_self p, ?_⟩
      intro r hr
      rw [List.mem_singleton] at hr
      rw [hr]
    · obtain ⟨q, hq, hmem, hmin⟩ := ih hrest
      by_cases hle : |p.date - t| ≤ |q.date - t|
      · refine ⟨p, ?_, List.mem_cons_self p rest, ?_⟩
        · simp only [argminDist, hq, if_pos hle]
        · intro r hr
          rcases List.mem_cons.mp hr with hrp | hrl
          · rw [hrp]
          · exact le_trans hle (hmin r hrl)
      · refine ⟨q, ?_, List.mem_cons_of_mem p hmem, ?_⟩
        · simp only [argminDist, hq, if_neg hle]
        · intro r hr
          rcases List.mem_cons.mp hr with hrp | hrl
          · rw [hrp]
            exact le_of_lt (lt_of_not_le hle)
          · exact hmin r hrl

lemma argminDist_eq_none (l : List Point) (t : ℤ) : argminDist l t = none ↔ l = [] := by
  constructor
  · intro h
    by_contra hne
    obtain ⟨q, hq, -, -⟩ := argminDist_spec t l hne
    rw [h] at hq
    exact Option.noConfusion hq
  · intro h
    rw [h]
    rfl

/-- `find_daily_price` (helpers.py lines 231-257): use the latest row of
`df_before`; flag it actual only when `df_before` has at least two rows
and that row is at most 5 days old.  The `none` branch is unreachable:
the caller only dispatches here with nonempty `df_before`. -/
def find_daily_price (df df_before : List Point) (last_date : ℤ) :
    Option ℚ × Option ℤ × Bool :=
  match df_before.getLast? with
  | some p =>
    if 2 ≤ df_before.length then
      (some p.price, some p.date, decide (last_date - p.date ≤ 5))
    else
      (some p.price, some p.date, false)
  | none => (none, none, false)

/-- `find_weekly_price` (helpers.py lines 259-296): tier 1 searches
`df_before` restricted to `[L-9, L-6]`, tier 2 restricts to `[L-14, ∞)`,
both picking the row closest to `L-7` (flagged actual); the last resort
is the latest row of `df_before`, flagged not actual. -/
def find_weekly_price (df df_before : List Point) (last_date : ℤ) :
    Option ℚ × Option ℤ × Bool :=
  match argminDist ((df_before.filter (fun p => decide (last_date - 9 ≤ p.date))).filter
      (fun p => decide (p.date ≤ last_date - 6))) (last_date - 7) with
  | some q => (some q.price, some q.date, true)
  | none =>
    match argminDist (df_before.filter (fun p => decide (last_date - 14 ≤ p.date)))
        (last_date - 7) with
    | some q => (some q.price, some q.date, true)
    | none =>
      ((df_before.getLast?).map Point.price, (df_before.getLast?).map Point.date, false)

/-- `find_monthly_price` (helpers.py lines 298-335): as the weekly search
with tier-1 window `[L-32, L-28]`, tier-2 window `[L-40, ∞)`, target
`L-30`. -/
def find_monthly_price (df df_before : List Point) (last_date : ℤ) :
    Option ℚ × Option ℤ × Bool :=
  match argminDist ((df_before.filter (fun p => decide (last_date - 32 ≤ p.date))).filter
      (fun p => decide (p.date ≤ last_date - 28))) (last_date - 30) with
  | some q => (some q.price, some q.date, true)
  | none =>
    match argminDist (df_before.filter (fun p => decide (last_date - 40 ≤ p.date)))
        (last_date - 30) with
    | some q => (some q.price, some q.date, true)
    | none =>
      ((df_before.getLast?).map Point.price, (df_before.getLast?).map Point.date, false)

/-- `find_yearly_price` (helpers.py lines 337-374): tier-1 window
`[L-370, L-360]`, tier-2 window `[L-430, ∞)`, target `L-365`. -/
def find_yearly_price (df df_before : List Point) (last_date : ℤ) :
    Option ℚ × Option ℤ × Bool :=
  match argminDist ((df_before.filter (fun p => decide (last_date - 370 ≤ p.date))).filter
      (fun p => decide (p.date ≤ last_date - 360))) (last_date - 365) with
  | some q => (some q.price, some q.date, true)
  | none =>
    match argminDist (df_before.filter (fun p => decide (last_date - 430 ≤ p.date)))
        (last_date - 365) with
    | some q => (some q.price, some q.date, true)
    | none =>
      ((df_before.getLast?).map Point.price, (df_before.getLast?).map Point.date, false)

/-- `find_ytd_price` (helpers.py lines 376-409).  The source computes
`jan_1 = datetime(last_date.year, 1, 1)`; in the day-number model that
calendar value is passed in as `jan1`, with `jan1 ≤ last_date` available
as a hypothesis where the claims need it. -/
def find_ytd_price (df : List Point) (last_date jan1 : ℤ) :
    Option ℚ × Option ℤ × Bool :=
  match (df.filter (fun p => decide (jan1 ≤ p.date))).head? with
  | some q => (some q.price, some q.date, true)
  | none =>
    match (df.filter (fun p => decide (p.date ≤ jan1))).getLast? with
    | some q => (some q.price, some q.date, false)
    | none => ((df.head?).map Point.price, (df.head?).map Point.date, false)

/-- `find_period_price` (helpers.py lines 186-229): generic degraded
fallback to the earliest row when nothing predates the target, then the
per-horizon dispatch on the label.  `jan1` is the day number of
`datetime(last_date.year, 1, 1)`, consumed only by the `ytd` branch. -/
def find_period_price (df : List Point) (last_date : ℤ) (period_days : ℤ)
    (label : String) (jan1 : ℤ) : Option ℚ × Option ℤ × Bool :=
  if df = [] then (none, none, false)
  else if dfBefore df (last_date - period_days) = [] then
    ((df.head?).map Point.price, (df.head?).map Point.date, false)
  else if label = "1d" then
    find_daily_price df (dfBefore df (last_date - period_days)) last_date
  else if label = "1w" then
    find_weekly_price df (dfBefore df (last_date - period_days)) last_date
  else if label = "1m" then
    find_monthly_price df (dfBefore df (last_date - period_days)) last_date
  else if label = "1y" then
    find_yearly_price df (dfBefore df (last_date - period_days)) last_date
  else if label = "ytd" then
    find_ytd_price df last_date jan1
  else
    (((dfBefore df (last_date - period_days)).getLast?).map Point.price,
     ((dfBefore df (last_date - period_days)).getLast?).map Point.date, false)

lemma dfBefore_ne_nil_df (df : List Point) (t : ℤ) (h : dfBefore df t ≠ []) : df ≠ [] := by
  intro hc
  rw [hc] at h
  exact h rfl

/-- C5 counterexample: a two-point series whose only earlier point lies 2
days (within the claimed `[1, 5]` window) before the last date: the code
returns it with `is_actual = false` (because `df_before` has fewer than
two rows), while the claim requires `true`. -/
theorem c5_counterexample :
    find_period_price [⟨0, 10⟩, ⟨2, 12⟩] 2 1 "1d" 0 = (some 10, some 0, false) ∧
    (∃ p ∈ [Point.mk 0 10, Point.mk 2 12], 1 ≤ 2 - p.date ∧ 2 - p.date ≤ 5) := by
  exact ⟨by decide, by decide⟩

/-- C5 amended: for the 1d horizon the locator always uses the latest
point dated at least one day before L: when at least two such points
exist it is flagged actual exactly when it is at most 5 days old (hence
actual whenever any point lies in `[1, 5]`); when exactly one such point
exists it is returned with `is_actual = false` even if it lies in
`[1, 5]`; and when no point predates L by a day the locator falls back to
the first point of the series with `is_actual = false`. -/
theorem c5_daily (df : List Point) (L j : ℤ) :
    (2 ≤ (dfBefore df (L - 1)).length →
      find_period_price df L 1 "1d" j =
        (((dfBefore df (L - 1)).getLast?).map Point.price,
         ((dfBefore df (L - 1)).getLast?).map Point.date,
         ((dfBefore df (L - 1)).getLast?).elim false (fun q => decide (L - q.date ≤ 5)))) ∧
    ((dfBefore df (L - 1)).length = 1 →
      find_period_price df L 1 "1d" j =
        (((dfBefore df (L - 1)).getLast?).map Point.price,
         ((dfBefore df (L - 1)).getLast?).map Point.date, false)) ∧
    (dfBefore df (L - 1) = [] → df ≠ [] →
      find_period_price df L 1 "1d" j =
        ((df.head?).map Point.price, (df.head?).map Point.date, false)) := by
  refine ⟨?_, ?_, ?_⟩
  · intro h2
    have hdb : dfBefore df (L - 1) ≠ [] := by
      intro hc
      rw [hc] at h2
      simp at h2
    have hdf : df ≠ [] := dfBefore_ne_nil_df df (L - 1) hdb
    have hq := List.getLast?_eq_getLast _ hdb
    unfold find_period_price
    rw [if_neg hdf, if_neg hdb, if_pos rfl]
    unfold find_daily_price
    simp only [hq, Option.map_some', Option.elim]
    rw [if_pos h2]
  · intro h1
    have hdb : dfBefore df (L - 1) ≠ [] := by
      intro hc
      rw [hc] at h1
      simp at h1
    have hdf : df ≠ [] := dfBefore_ne_nil_df df (L - 1) hdb
    have hq := List.getLast?_eq_getLast _ hdb
    unfold find_period_price
    rw [if_neg hdf, if_neg hdb, if_pos rfl]
    unfold find_daily_price
    simp only [hq, Option.map_some', Option.elim]
    rw [if_neg (by omega : ¬ 2 ≤ (dfBefore df (L - 1)).length)]
  · intro hdb hdf
    unfold find_period_price
    rw [if_neg hdf, if_pos hdb]

/-- C5 witness: three points at days 0, 5, 9; the day-5 point is the
latest one at least a day old and is within 5 days, so it is the actual
reference. -/
theorem c5_witness :
    find_period_price [⟨0, 10⟩, ⟨5, 11⟩, ⟨9, 12⟩] 9 1 "1d" 0 = (some 11, some 5, true) := by
  have h := (c5_daily [⟨0, 10⟩, ⟨5, 11⟩, ⟨9, 12⟩] 9 0).1 (by decide)
  exact h.trans (by decide)

/-- The tier-1 weekly window: restricting `df_before` (dates `≤ L-7`) to
`[L-9, L-6]` leaves exactly the points lagging 7 to 9 days. -/
lemma week1_eq (df : List Point) (L : ℤ) :
    ((dfBefore df (L - 7)).filter (fun p => decide (L - 9 ≤ p.date))).filter
        (fun p => decide (p.date ≤ L - 6))
      = df.filter (fun p => decide (7 ≤ L - p.date ∧ L - p.date ≤ 9)) := by
  unfold dfBefore
  rw [List.filter_filter, List.filter_filter]
  apply List.filter_congr
  intro a _
  rw [← Bool.decide_and, ← Bool.decide_and, decide_eq_decide]
  omega

/-- The tier-2 weekly window: restricting `df_before` to `[L-14, ∞)`
leaves exactly the points lagging 7 to 14 days. -/
lemma week2_eq (df : List Point) (L : ℤ) :
    (dfBefore df (L - 7)).filter (fun p => decide (L - 14 ≤ p.date))
      = df.filter (fun p => decide (7 ≤ L - p.date ∧ L - p.date ≤ 14)) := by
  unfold dfBefore
  rw [List.filter_filter]
  apply List.filter_congr
  intro a _
  rw [← Bool.decide_and, decide_eq_decide]
  omega

/-- C2 counterexample: the series has a point exactly 6 days before L
(inside the claimed `[6, 9]` tier-1 window), but the code pre-filters to
dates `≤ L-7`, never sees it, and ends in the last-resort branch
returning the 20-day-old point with `is_actual = false`. -/
theorem c2_counterexample :
    find_period_price [⟨-20, 1⟩, ⟨-6, 2⟩, ⟨0, 3⟩] 0 7 "1w" 0 = (some 1, some (-20), false) ∧
    (∃ p ∈ [Point.mk (-20) 1, Point.mk (-6) 2, Point.mk 0 3],
      6 ≤ (0 : ℤ) - p.date ∧ (0 : ℤ) - p.date ≤ 9) := by
  exact ⟨by decide, by decide⟩

/-- C2 amended: for the 1w horizon, whenever the series contains a point
lagging 7 to 9 days (not 6 to 9: points lagging under 7 days are removed
by the `df_before` pre-filter), the locator picks from that window a
point of minimal distance to 7 days before L and reports
`is_actual = true`; only when that window is empty does it widen to
points lagging 7 to 14 days (not 5 to 14), again picking the point
closest to 7 days before L. -/
theorem c2_weekly (df : List Point) (L j : ℤ) :
    (df.filter (fun p => decide (7 ≤ L - p.date ∧ L - p.date ≤ 9)) ≠ [] →
      ∃ q, q ∈ df.filter (fun p => decide (7 ≤ L - p.date ∧ L - p.date ≤ 9)) ∧
        (∀ r ∈ df.filter (fun p => decide (7 ≤ L - p.date ∧ L - p.date ≤ 9)),
          |q.date - (L - 7)| ≤ |r.date - (L - 7)|) ∧
        find_period_price df L 7 "1w" j = (some q.price, some q.date, true)) ∧
    (df.filter (fun p => decide (7 ≤ L - p.date ∧ L - p.date ≤ 9)) = [] →
      df.filter (fun p => decide (7 ≤ L - p.date ∧ L - p.date ≤ 14)) ≠ [] →
      ∃ q, q ∈ df.filter (fun p => decide (7 ≤ L - p.date ∧ L - p.date ≤ 14)) ∧
        (∀ r ∈ df.filter (fun p => decide (7 ≤ L - p.date ∧ L - p.date ≤ 14)),
          |q.date - (L - 7)| ≤ |r.date - (L - 7)|) ∧
        find_period_price df L 7 "1w" j = (some q.price, some q.date, true)) := by
  constructor
  · intro h1
    obtain ⟨q, hq, hmem, hmin⟩ := argminDist_spec (L - 7) _ h1
    refine ⟨q, hmem, hmin, ?_⟩
    have hdfb : dfBefore df (L - 7) ≠ [] := by
      obtain ⟨x, hx⟩ := List.exists_mem_of_ne_nil _ h1
      have hx' := List.mem_filter.mp hx
      have hxp := of_decide_eq_true hx'.2
      have hxb : x ∈ dfBefore df (L - 7) :=
        List.mem_filter.mpr ⟨hx'.1, decide_eq_true (by omega : x.date ≤ L - 7)⟩
      intro hc
      rw [hc] at hxb
      exact absurd hxb (List.not_mem_nil x)
    have hdf : df ≠ [] := dfBefore_ne_nil_df df (L - 7) hdfb
    unfold find_period_price
    rw [if_neg hdf, if_neg hdfb, if_neg (by decide : ¬("1w" = "1d")), if_pos rfl]
    unfold find_weekly_price
    rw [week1_eq df L]
    simp only [hq]
  · intro h1 h2
    obtain ⟨q, hq, hmem, hmin⟩ := argminDist_spec (L - 7) _ h2
    refine ⟨q, hmem, hmin, ?_⟩
    have hdfb : dfBefore df (L - 7) ≠ [] := by
      obtain ⟨x, hx⟩ := List.exists_mem_of_ne_nil _ h2
      have hx' := List.mem_filter.mp hx
      have hxp := of_decide_eq_true hx'.2
      have hxb : x ∈ dfBefore df (L - 7) :=
        List.mem_filter.mpr ⟨hx'.1, decide_eq_true (by omega : x.date ≤ L - 7)⟩
      intro hc
      rw [hc] at hxb
      exact absurd hxb (List.not_mem_nil x)
    have hdf : df ≠ [] := dfBefore_ne_nil_df df (L - 7) hdfb
    have hw1 : argminDist (((dfBefore df (L - 7)).filter
        (fun p => decide (L - 9 ≤ p.date))).filter
        (fun p => decide (p.date ≤ L - 6))) (L - 7) = none := by
      rw [week1_eq df L, argminDist_eq_none]
      exact h1
    unfold find_period_price
    rw [if_neg hdf, if_neg hdfb, if_neg (by decide : ¬("1w" = "1d")), if_pos rfl]
    unfold find_weekly_price
    rw [hw1]
    rw [week2_eq df L]
    simp only [hq]

/-- C2 witness: a point 8 days before the last date is in the tier-1
window and is used as the actual weekly reference. -/
theorem c2_witness :
    find_period_price [⟨-8, 5⟩, ⟨0, 6⟩] 0 7 "1w" 0 = (some 5, some (-8), true) := by
  obtain ⟨q, hqmem, -, hres⟩ := (c2_weekly [⟨-8, 5⟩, ⟨0, 6⟩] 0 0).1 (by decide)
  have hfil : ([⟨-8, 5⟩, ⟨0, 6⟩] : List Point).filter
      (fun p => decide (7 ≤ (0 : ℤ) - p.date ∧ (0 : ℤ) - p.date ≤ 9)) = [⟨-8, 5⟩] := by decide
  rw [hfil, List.mem_singleton] at hqmem
  rw [hqmem] at hres
  exact hres.trans (by decide)

/-- C1 counterexample: a series that starts after January 1 (day 0): its
points all lie in L's year, so the claim demands the earliest of them
with `is_actual = true`, but the wrapper's `df_before` guard fires (no
point on or before January 1) and the code returns the earliest point
with `is_actual = false`. -/
theorem c1_counterexample :
    find_period_price [⟨31, 10⟩, ⟨60, 12⟩] 60 60 "ytd" 0 = (some 10, some 31, false) ∧
    (∃ p ∈ [Point.mk 31 10, Point.mk 60 12], (0 : ℤ) ≤ p.date) := by
  exact ⟨by decide, by decide⟩

/-- C1 amended: for a sorted series of at least two points with last date
L and `jan1 ≤ L` the January-1 day of L's year, the ytd horizon always
uses as its reference the earliest point dated on or after January 1
(such a point always exists, the last row itself being one), and reports
`is_actual_observation = true` exactly when the series also contains at
least one point dated on or before January 1; otherwise the flag is
false.  The spec's other two ytd fallbacks are never reached. -/
theorem c1_ytd (df : List Point) (L j : ℤ) (pl : Point)
    (hs : List.Sorted dateLE df) (hlast : df.getLast? = some pl) (hL : pl.date = L)
    (hj : j ≤ L) (h2 : 2 ≤ df.length) :
    ∃ q, (df.filter (fun p => decide (j ≤ p.date))).head? = some q ∧
      find_period_price df L (L - j) "ytd" j =
        (some q.price, some q.date, df.any (fun p => decide (p.date ≤ j))) := by
  have hdf : df ≠ [] := by
    intro hc
    rw [hc] at h2
    simp at h2
  have htar : L - (L - j) = j := by ring
  have hplmem : pl ∈ df := by
    have hgl := List.getLast?_eq_getLast df hdf
    rw [hgl] at hlast
    rw [← Option.some.inj hlast]
    exact List.getLast_mem hdf
  have hpl_in : pl ∈ df.filter (fun p => decide (j ≤ p.date)) :=
    List.mem_filter.mpr ⟨hplmem, decide_eq_true (hL.symm ▸ hj : j ≤ pl.date)⟩
  have hjne : df.filter (fun p => decide (j ≤ p.date)) ≠ [] := by
    intro hc
    rw [hc] at hpl_in
    exact absurd hpl_in (List.not_mem_nil pl)
  unfold find_period_price
  rw [htar]
  by_cases hdb : dfBefore df j = []
  · rw [if_neg hdf, if_pos hdb]
    have hhead := List.head?_eq_head hdf
    refine ⟨df.head hdf, ?_, ?_⟩
    · have hfeq : df.filter (fun p => decide (j ≤ p.date)) = df := by
        apply List.filter_eq_self.mpr
        intro a ha
        have hnb := List.filter_eq_nil_iff.mp hdb a ha
        refine decide_eq_true ?_
        have hna : ¬ a.date ≤ j := fun hc => hnb (decide_eq_true hc)
        omega
      rw [hfeq, hhead]
    · have hany : df.any (fun p => decide (p.date ≤ j)) = false :=
        List.any_eq_false.mpr (fun a ha => List.filter_eq_nil_iff.mp hdb a ha)
      rw [hany, hhead]
      rfl
  · rw [if_neg hdf, if_neg hdb, if_neg (by decide : ¬("ytd" = "1d")),
      if_neg (by decide : ¬("ytd" = "1w")), if_neg (by decide : ¬("ytd" = "1m")),
      if_neg (by decide : ¬("ytd" = "1y")), if_pos rfl]
    unfold find_ytd_price
    have hhead := List.head?_eq_head hjne
    refine ⟨(df.filter (fun p => decide (j ≤ p.date))).head hjne, hhead, ?_⟩
    have hany : df.any (fun p => decide (p.date ≤ j)) = true := by
      obtain ⟨x, hx⟩ := List.exists_mem_of_ne_nil _ hdb
      have hx' := List.mem_filter.mp hx
      exact List.any_eq_true.mpr ⟨x, hx'.1, hx'.2⟩
    simp only [hhead, hany]

/-- C1 witness: a series with one point before January 1 (day 0) and one
after; the ytd reference is the earliest this-year point, flagged actual. -/
theorem c1_witness :
    find_period_price [⟨-3, 5⟩, ⟨10, 6⟩] 10 10 "ytd" 0 = (some 6, some 10, true) := by
  obtain ⟨q, hq, hres⟩ := c1_ytd [⟨-3, 5⟩, ⟨10, 6⟩] 10 0 ⟨10, 6⟩ (by decide) (by decide)
    rfl (by decide) (by decide)
  have hfil : (([⟨-3, 5⟩, ⟨10, 6⟩] : List Point).filter
      (fun p => decide ((0 : ℤ) ≤ p.date))).head? = some ⟨10, 6⟩ := by decide
  rw [hfil] at hq
  rw [← Option.some.inj hq] at hres
  exact hres.trans (by decide)

/-- `df['Date'].iloc[i]`; the default row is unreachable at the call
sites, which index within bounds. -/
def dateAt (df : List Point) (i : ℕ) : ℤ := (df.getD i ⟨0, 0⟩).date

/-- `df['Price'].iloc[i]`. -/
def priceAt (df : List Point) (i : ℕ) : ℚ := (df.getD i ⟨0, 0⟩).price

/-- The `closest to 30 days ago but at least 7 days old` scan of
`find_reference_price` (helpers.py lines 141-147): walk the indices from
`len-2` down to 0 keeping the first strict improvement of
`abs(lag - 30)` among rows with `lag > 7`. -/
def closestTo30 (df : List Point) (last_date : ℤ) (idxs : List ℕ) : Option ℕ :=
  (idxs.foldl (fun acc i =>
    match acc with
    | none =>
      if 7 < last_date - dateAt df i then some (|last_date - dateAt df i - 30|, i) else none
    | some (cd, jx) =>
      if |last_date - dateAt df i - 30| < cd ∧ 7 < last_date - dateAt df i then
        some (|last_date - dateAt df i - 30|, i)
      else some (cd, jx)) (none : Option (ℤ × ℕ))).map Prod.snd

/-- `find_reference_price` (helpers.py lines 90-160): tiered backwards
index scans per frequency class.  In the main branch `len(df) ≥ 2`, so
the final `previous_date_idx is None` default of `len(df) - 2` always
applies (`getD`), and the terminal `iloc[0]` fallback is unreachable. -/
def find_reference_price (df : List Point) (last_date : ℤ) (freq_type : String) : Option ℚ :=
  if df.length < 2 then (df.head?).map Point.price
  else
    let idxs := (List.range (df.length - 1)).reverse
    let prev_idx : Option ℕ :=
      if freq_type = "daily" then
        idxs.find? (fun i =>
          decide (1 ≤ last_date - dateAt df i ∧ last_date - dateAt df i ≤ 3))
      else if freq_type = "weekly" then
        (idxs.find? (fun i =>
          decide (5 ≤ last_date - dateAt df i ∧ last_date - dateAt df i ≤ 10))).orElse
          (fun _ => idxs.find? (fun i => decide (3 ≤ last_date - dateAt df i)))
      else
        ((idxs.find? (fun i =>
          decide (25 ≤ last_date - dateAt df i ∧ last_date - dateAt df i ≤ 35))).orElse
          (fun _ => closestTo30 df last_date idxs)).orElse
          (fun _ => idxs.find? (fun i => decide (14 ≤ last_date - dateAt df i)))
    some (priceAt df (prev_idx.getD (df.length - 2)))

/-- A cell of the result dictionary of `calculate_change`. -/
inductive Val where
  | vnone
  | vnum (q : ℚ)
  | vdate (d : ℤ)
  | vstr (s : String)
  | vbool (b : Bool)
deriving DecidableEq, Repr

/-- `None`-or-number cell. -/
def oq : Option ℚ → Val
  | none => .vnone
  | some q => .vnum q

/-- `None`-or-date cell. -/
def od : Option ℤ → Val
  | none => .vnone
  | some d => .vdate d

/-- The early-return dictionary of `calculate_change` for empty or
single-row input (helpers.py lines 429-443).  Note it carries no
`freq_type` key. -/
def emptyChangeResult : List (String × Val) :=
  [("last_price", .vnone), ("previous_price", .vnone),
   ("change_1d", .vnone), ("change_1d_pct", .vnone),
   ("change_1w", .vnone), ("change_1w_pct", .vnone),
   ("change_1m", .vnone), ("change_1m_pct", .vnone),
   ("change_1y", .vnone), ("change_1y_pct", .vnone),
   ("change_ytd", .vnone), ("change_ytd_pct", .vnone)]

/-- `is_daily_native` (helpers.py line 488). -/
def is_daily_native (freq_type : String) (avg_diff : ℚ) : Bool :=
  (freq_type == "daily") && decide (avg_diff ≤ 3)

/-- `is_weekly_native` (helpers.py line 489); `3 < avg_diff <= 10` is the
chained comparison. -/
def is_weekly_native (freq_type : String) (avg_diff : ℚ) : Bool :=
  ((freq_type == "weekly") && (decide (3 < avg_diff) && decide (avg_diff ≤ 10))) ||
  ((freq_type == "daily") && !(is_daily_native freq_type avg_diff))

/-- `is_monthly_native` (helpers.py line 490). -/
def is_monthly_native (freq_type : String) (avg_diff : ℚ) : Bool :=
  ((freq_type == "monthly") && decide (10 < avg_diff)) ||
  (!(is_daily_native freq_type avg_diff) && !(is_weekly_native freq_type avg_diff))

/-- `best_period` selection (helpers.py lines 493-498). -/
def best_period (freq_type : String) (avg_diff : ℚ) : String :=
  if is_daily_native freq_type avg_diff then "1d"
  else if is_weekly_native freq_type avg_diff then "1w"
  else "1m"

/-- The main branch of `calculate_change` (helpers.py lines 445-560) for
series of at least two rows: sort, detect frequency, locate the
per-horizon references, and assemble the result dictionary in insertion
order.  `jan1` is the day number of `datetime(last_date.year, 1, 1)`, so
`days_since_jan_1 = last_date - jan1`. -/
def calculate_change_full (jan1 : ℤ) (df0 : List Point) : List (String × Val) :=
  let df := get_sorted_dataframe df0
  let last_price := ((df.getLast?).getD ⟨0, 0⟩).price
  let last_date := ((df.getLast?).getD ⟨0, 0⟩).date
  let freq_type := (get_date_frequency df).1
  let avg_diff := (get_date_frequency df).2
  let previous_price := find_reference_price df last_date freq_type
  let change_recent := calc_price_change (some last_price) previous_price
  let r1d := find_period_price df last_date 1 "1d" jan1
  let r1w := find_period_price df last_date 7 "1w" jan1
  let r1m := find_period_price df last_date 30 "1m" jan1
  let r1y := find_period_price df last_date 365 "1y" jan1
  let rytd := find_period_price df last_date (last_date - jan1) "ytd" jan1
  let c1d := calc_price_change (some last_price) r1d.1
  let c1w := calc_price_change (some last_price) r1w.1
  let c1m := calc_price_change (some last_price) r1m.1
  let c1y := calc_price_change (some last_price) r1y.1
  let cytd := calc_price_change (some last_price) rytd.1
  [("last_price", .vnum last_price),
   ("previous_price", oq previous_price),
   ("freq_type", .vstr freq_type),
   ("avg_days_between_points", .vnum avg_diff),
   ("change_recent", oq change_recent.1),
   ("change_recent_pct", oq change_recent.2),
   ("change_1d", oq c1d.1), ("change_1d_pct", oq c1d.2),
   ("change_1w", oq c1w.1), ("change_1w_pct", oq c1w.2),
   ("change_1m", oq c1m.1), ("change_1m_pct", oq c1m.2),
   ("change_1y", oq c1y.1), ("change_1y_pct", oq c1y.2),
   ("change_ytd", oq cytd.1), ("change_ytd_pct", oq cytd.2),
   ("change_1d_date", od r1d.2.1), ("change_1w_date", od r1w.2.1),
   ("change_1m_date", od r1m.2.1), ("change_1y_date", od r1y.2.1),
   ("change_ytd_date", od rytd.2.1),
   ("change_1d_has_actual_data", .vbool r1d.2.2),
   ("change_1w_has_actual_data", .vbool r1w.2.2),
   ("change_1m_has_actual_data", .vbool r1m.2.2),
   ("change_1y_has_actual_data", .vbool r1y.2.2),
   ("change_ytd_has_actual_data", .vbool rytd.2.2),
   ("change_1d_is_native", .vbool (is_daily_native freq_type avg_diff)),
   ("change_1w_is_native", .vbool (is_weekly_native freq_type avg_diff)),
   ("change_1m_is_native", .vbool (is_monthly_native freq_type avg_diff)),
   ("change_1y_is_native", .vbool true),
   ("change_ytd_is_native", .vbool true),
   ("change_1d_is_duplicate", .vbool (!r1d.2.2)),
   ("change_1w_is_duplicate", .vbool (!r1w.2.2)),
   ("change_1m_is_duplicate", .vbool (!r1m.2.2)),
   ("change_1y_is_duplicate", .vbool (!r1y.2.2)),
   ("change_ytd_is_duplicate", .vbool (!rytd.2.2)),
   ("change_1d_is_applicable", .vbool (is_daily_native freq_type avg_diff)),
   ("change_1w_is_applicable",
     .vbool (is_weekly_native freq_type avg_diff || is_daily_native freq_type avg_diff)),
   ("change_1m_is_applicable", .vbool true),
   ("change_1y_is_applicable", .vbool true),
   ("change_ytd_is_applicable", .vbool true),
   ("best_period", .vstr (best_period freq_type avg_diff))]

/-- `calculate_change` (helpers.py lines 411-560): early return on empty
or single-row input, main branch otherwise. -/
def calculate_change (jan1 : ℤ) (df : List Point) : List (String × Val) :=
  if df.length < 2 then emptyChangeResult
  else calculate_change_full jan1 df

/-- C3 counterexample: the early-return dictionary of `calculate_change`
carries no frequency-class entry at all — looking up `freq_type` on the
empty-input and single-point results yields nothing, rather than the
claimed value `unknown`. -/
theorem c3_counterexample :
    (calculate_change 0 []).lookup "freq_type" = none ∧
    (calculate_change 0 [⟨0, 1⟩]).lookup "freq_type" = none := by
  exact ⟨rfl, rfl⟩

/-- C3 amended: computing changes on an empty or single-point series
returns (without raising — the embedded function is total) a record whose
twelve price/change fields are all null; the frequency-class field is
absent from this record, not set to `unknown`. -/
theorem c3_empty_safe (jan1 : ℤ) (df : List Point) (h : df.length < 2) :
    ((calculate_change jan1 df).lookup "last_price" = some Val.vnone) ∧
    ((calculate_change jan1 df).lookup "previous_price" = some Val.vnone) ∧
    ((calculate_change jan1 df).lookup "change_1d" = some Val.vnone) ∧
    ((calculate_change jan1 df).lookup "change_1d_pct" = some Val.vnone) ∧
    ((calculate_change jan1 df).lookup "change_1w" = some Val.vnone) ∧
    ((calculate_change jan1 df).lookup "change_1w_pct" = some Val.vnone) ∧
    ((calculate_change jan1 df).lookup "change_1m" = some Val.vnone) ∧
    ((calculate_change jan1 df).lookup "change_1m_pct" = some Val.vnone) ∧
    ((calculate_change jan1 df).lookup "change_1y" = some Val.vnone) ∧
    ((calculate_change jan1 df).lookup "change_1y_pct" = some Val.vnone) ∧
    ((calculate_change jan1 df).lookup "change_ytd" = some Val.vnone) ∧
    ((calculate_change jan1 df).lookup "change_ytd_pct" = some Val.vnone) ∧
    ((calculate_change jan1 df).lookup "freq_type" = none) := by
  unfold calculate_change
  rw [if_pos h]
  exact ⟨rfl, rfl, rfl, rfl, rfl, rfl, rfl, rfl, rfl, rfl, rfl, rfl, rfl⟩

/-- C3 witness: the amended theorem applied to the empty series. -/
theorem c3_witness :
    ((calculate_change 0 []).lookup "last_price" = some Val.vnone) ∧
    ((calculate_change 0 []).lookup "previous_price" = some Val.vnone) ∧
    ((calculate_change 0 []).lookup "change_1d" = some Val.vnone) ∧
    ((calculate_change 0 []).lookup "change_1d_pct" = some Val.vnone) ∧
    ((calculate_change 0 []).lookup "change_1w" = some Val.vnone) ∧
    ((calculate_change 0 []).lookup "change_1w_pct" = some Val.vnone) ∧
    ((calculate_change 0 []).lookup "change_1m" = some Val.vnone) ∧
    ((calculate_change 0 []).lookup "change_1m_pct" = some Val.vnone) ∧
    ((calculate_change 0 []).lookup "change_1y" = some Val.vnone) ∧
    ((calculate_change 0 []).lookup "change_1y_pct" = some Val.vnone) ∧
    ((calculate_change 0 []).lookup "change_ytd" = some Val.vnone) ∧
    ((calculate_change 0 []).lookup "change_ytd_pct" = some Val.vnone) ∧
    ((calculate_change 0 []).lookup "freq_type" = none) :=
  c3_empty_safe 0 [] (by decide)

lemma length_get_sorted (df : List Point) :
    (get_sorted_dataframe df).length = df.length := by
  unfold get_sorted_dataframe
  split_ifs
  · rfl
  · exact List.length_insertionSort dateLE df

/-- Case analysis of the native-frequency flags against the frequency
classification: exactly one flag holds, and the best period follows it. -/
lemma natives_cases (s : String) (a : ℚ)
    (hs : s = (if a < 3 then "daily" else if a < 10 then "weekly" else "monthly")) :
    ((is_daily_native s a, is_weekly_native s a, is_monthly_native s a)
        = (true, false, false) ∧ best_period s a = "1d") ∨
    ((is_daily_native s a, is_weekly_native s a, is_monthly_native s a)
        = (false, true, false) ∧ best_period s a = "1w") ∨
    ((is_daily_native s a, is_weekly_native s a, is_monthly_native s a)
        = (false, false, true) ∧ best_period s a = "1m") := by
  by_cases ha3 : a < 3
  · left
    rw [hs, if_pos ha3]
    have hd : decide (a ≤ 3) = true := decide_eq_true (le_of_lt ha3)
    refine ⟨?_, ?_⟩ <;>
      simp only [is_daily_native, is_weekly_native, is_monthly_native, best_period, hd] <;>
      cases hq1 : decide (3 < a) <;> cases hq2 : decide (a ≤ 10) <;>
      cases hq3 : decide (10 < a) <;> rfl
  · by_cases ha10 : a < 10
    · by_cases h3a : 3 < a
      · right; left
        rw [hs, if_neg ha3, if_pos ha10]
        have h1 : decide (3 < a) = true := decide_eq_true h3a
        have h2 : decide (a ≤ 10) = true := decide_eq_true (le_of_lt ha10)
        refine ⟨?_, ?_⟩ <;>
          simp only [is_daily_native, is_weekly_native, is_monthly_native, best_period,
            h1, h2] <;>
          cases hq1 : decide (a ≤ 3) <;> cases hq3 : decide (10 < a) <;> rfl
      · right; right
        rw [hs, if_neg ha3, if_pos ha10]
        have h1 : decide (3 < a) = false := decide_eq_false h3a
        refine ⟨?_, ?_⟩ <;>
          simp only [is_daily_native, is_weekly_native, is_monthly_native, best_period,
            h1] <;>
          cases hq1 : decide (a ≤ 3) <;> cases hq2 : decide (a ≤ 10) <;>
          cases hq3 : decide (10 < a) <;> rfl
    · right; right
      rw [hs, if_neg ha3, if_neg ha10]
      refine ⟨?_, ?_⟩ <;>
        simp only [is_daily_native, is_weekly_native, is_monthly_native, best_period] <;>
        cases hq1 : decide (a ≤ 3) <;> cases hq2 : decide (3 < a) <;>
        cases hq2' : decide (a ≤ 10) <;> cases hq3 : decide (10 < a) <;> rfl

/-- C10: for every series of at least two points, exactly one of the
three native-frequency flags in the change-calculation output is true,
and the best display period is defined and equal to the horizon of the
flag that holds (one of `1d`, `1w`, `1m`). -/
theorem c10_native_flags (jan1 : ℤ) (df : List Point) (h2 : 2 ≤ df.length) :
    ∃ b1 b2 b3 : Bool,
      (calculate_change jan1 df).lookup "change_1d_is_native" = some (Val.vbool b1) ∧
      (calculate_change jan1 df).lookup "change_1w_is_native" = some (Val.vbool b2) ∧
      (calculate_change jan1 df).lookup "change_1m_is_native" = some (Val.vbool b3) ∧
      ((b1 = true ∧ b2 = false ∧ b3 = false) ∨ (b1 = false ∧ b2 = true ∧ b3 = false) ∨
        (b1 = false ∧ b2 = false ∧ b3 = true)) ∧
      ∃ s : String,
        (calculate_change jan1 df).lookup "best_period" = some (Val.vstr s) ∧
        (s = "1d" ∨ s = "1w" ∨ s = "1m") ∧
        (b1 = true → s = "1d") ∧ (b1 = false → b2 = true → s = "1w") ∧
        (b1 = false → b2 = false → s = "1m") := by
  have hnot : ¬ df.length < 2 := by omega
  have hcc : calculate_change jan1 df = calculate_change_full jan1 df := by
    unfold calculate_change
    rw [if_neg hnot]
  have hlen : 2 ≤ (get_sorted_dataframe df).length := by
    rw [length_get_sorted]
    exact h2
  obtain ⟨a, hfreq⟩ := get_date_frequency_spec (get_sorted_dataframe df) hlen
  have hsnd : (get_date_frequency (get_sorted_dataframe df)).2 = a := by rw [hfreq]
  have hS : (get_date_frequency (get_sorted_dataframe df)).1 =
      (if a < 3 then "daily" else if a < 10 then "weekly" else "monthly") := by
    rw [hfreq]
  have hl1 : (calculate_change_full jan1 df).lookup "change_1d_is_native" =
      some (Val.vbool (is_daily_native (get_date_frequency (get_sorted_dataframe df)).1
        (get_date_frequency (get_sorted_dataframe df)).2)) := rfl
  have hl2 : (calculate_change_full jan1 df).lookup "change_1w_is_native" =
      some (Val.vbool (is_weekly_native (get_date_frequency (get_sorted_dataframe df)).1
        (get_date_frequency (get_sorted_dataframe df)).2)) := rfl
  have hl3 : (calculate_change_full jan1 df).lookup "change_1m_is_native" =
      some (Val.vbool (is_monthly_native (get_date_frequency (get_sorted_dataframe df)).1
        (get_date_frequency (get_sorted_dataframe df)).2)) := rfl
  have hlb : (calculate_change_full jan1 df).lookup "best_period" =
      some (Val.vstr (best_period (get_date_frequency (get_sorted_dataframe df)).1
        (get_date_frequency (get_sorted_dataframe df)).2)) := rfl
  rw [hsnd] at hl1 hl2 hl3 hlb
  rcases natives_cases _ a hS with ⟨hflags, hbp⟩ | ⟨hflags, hbp⟩ | ⟨hflags, hbp⟩ <;>
    rw [Prod.mk.injEq, Prod.mk.injEq] at hflags
  · refine ⟨true, false, false, ?_, ?_, ?_, Or.inl ⟨rfl, rfl, rfl⟩, "1d", ?_,
      Or.inl rfl, fun _ => rfl, ?_, ?_⟩
    · rw [hcc, hl1, hflags.1]
    · rw [hcc, hl2, hflags.2.1]
    · rw [hcc, hl3, hflags.2.2]
    · rw [hcc, hlb, hbp]
    · intro h
      exact absurd h (by decide)
    · intro h
      exact absurd h (by decide)
  · refine ⟨false, true, false, ?_, ?_, ?_, Or.inr (Or.inl ⟨rfl, rfl, rfl⟩), "1w", ?_,
      Or.inr (Or.inl rfl), ?_, fun _ _ => rfl, ?_⟩
    · rw [hcc, hl1, hflags.1]
    · rw [hcc, hl2, hflags.2.1]
    · rw [hcc, hl3, hflags.2.2]
    · rw [hcc, hlb, hbp]
    · intro h
      exact absurd h (by decide)
    · intro _ h
      exact absurd h (by decide)
  · refine ⟨false, false, true, ?_, ?_, ?_, Or.inr (Or.inr ⟨rfl, rfl, rfl⟩), "1m", ?_,
      Or.inr (Or.inr rfl), ?_, ?_, fun _ _ => rfl⟩
    · rw [hcc, hl1, hflags.1]
    · rw [hcc, hl2, hflags.2.1]
    · rw [hcc, hl3, hflags.2.2]
    · rw [hcc, hlb, hbp]
    · intro h
      exact absurd h (by decide)
    · intro _ h
      exact absurd h (by decide)

/-- C10 witness: the invariant instantiated on a concrete two-point
daily series. -/
theorem c10_witness :
    ∃ b1 b2 b3 : Bool,
      (calculate_change 0 [⟨0, 1⟩, ⟨1, 2⟩]).lookup "change_1d_is_native"
        = some (Val.vbool b1) ∧
      (calculate_change 0 [⟨0, 1⟩, ⟨1, 2⟩]).lookup "change_1w_is_native"
        = some (Val.vbool b2) ∧
      (calculate_change 0 [⟨0, 1⟩, ⟨1, 2⟩]).lookup "change_1m_is_native"
        = some (Val.vbool b3) ∧
      ((b1 = true ∧ b2 = false ∧ b3 = false) ∨ (b1 = false ∧ b2 = true ∧ b3 = false) ∨
        (b1 = false ∧ b2 = false ∧ b3 = true)) ∧
      ∃ s : String,
        (calculate_change 0 [⟨0, 1⟩, ⟨1, 2⟩]).lookup "best_period" = some (Val.vstr s) ∧
        (s = "1d" ∨ s = "1w" ∨ s = "1m") ∧
        (b1 = true → s = "1d") ∧ (b1 = false → b2 = true → s = "1w") ∧
        (b1 = false → b2 = false → s = "1m") :=
  c10_native_flags 0 [⟨0, 1⟩, ⟨1, 2⟩] (by decide)

/-- Decimal digit character of `n % 10`. -/
def digitChar (n : ℕ) : Char :=
  if n % 10 = 0 then '0' else if n % 10 = 1 then '1' else if n % 10 = 2 then '2'
  else if n % 10 = 3 then '3' else if n % 10 = 4 then '4' else if n % 10 = 5 then '5'
  else if n % 10 = 6 then '6' else if n % 10 = 7 then '7' else if n % 10 = 8 then '8'
  else '9'

/-- Decimal rendering of a natural number (fuelled; `fuel > log10 n`
suffices, and `natStr` passes `n + 1`). -/
def natStrAux : ℕ → ℕ → List Char
  | 0, _ => []
  | fuel + 1, n =>
    if n < 10 then [digitChar n]
    else natStrAux fuel (n / 10) ++ [digitChar n]

/-- Decimal rendering of a natural number. -/
def natStr (n : ℕ) : String := ⟨natStrAux (n + 1) n⟩

/-- Fixed-point rendering of a nonnegative rational with `d` decimals,
the model of Python `f"{x:.df}"` on nonnegative values.  Rounding is
round-half-up on the exact rational; at exact decimal ties IEEE binary
formatting may differ in the final digit, which no claim depends on. -/
def fmtNN (q : ℚ) (d : ℕ) : String :=
  if d = 0 then natStr (⌊q + 1 / 2⌋).toNat
  else
    natStr ((⌊q * (10 : ℚ) ^ d + 1 / 2⌋).toNat / 10 ^ d) ++ "." ++
      ⟨List.replicate
          (d - (natStr ((⌊q * (10 : ℚ) ^ d + 1 / 2⌋).toNat % 10 ^ d)).length) '0' ++
        (natStr ((⌊q * (10 : ℚ) ^ d + 1 / 2⌋).toNat % 10 ^ d)).data⟩

/-- Signed fixed-point rendering, the model of Python `f"{x:.df}"`. -/
def fmtQ (q : ℚ) (d : ℕ) : String :=
  if q < 0 then "-" ++ fmtNN (-q) d else fmtNN q d

/-- `format_change_value` (helpers.py lines 858-921).  The
`float()`-conversion failure branch (`"Invalid data"`) is unreachable for
numeric inputs and has no counterpart in the rational model. -/
def format_change_value (change change_pct : Option ℚ) (is_duplicate : Bool)
    (is_applicable : Bool) : String × String :=
  if !is_applicable then ("N/A", "neutral")
  else
    match change, change_pct with
    | some c, some p =>
      if |c| < 1 / 1000000 ∨ |p| < 1 / 1000000 then ("No change (0.00%)", "neutral")
      else
        let sign := if 0 < c then "+" else ""
        let change_str :=
          if |c| < 1 / 10 then sign ++ fmtQ c 4
          else if |c| < 1 then sign ++ fmtQ c 3
          else if |c| < 10 then sign ++ fmtQ c 2
          else if |c| < 100 then sign ++ fmtQ c 1
          else sign ++ fmtQ c 0
        let pct_str := sign ++ fmtQ (p * 100) 2 ++ "%"
        let color_class :=
          if |c| < 1 / 1000000 ∨ |p| < 1 / 1000000 then "neutral"
          else if 0 < c then "positive" else "negative"
        if is_duplicate then (change_str ++ " (" ++ pct_str ++ ") *", color_class)
        else (change_str ++ " (" ++ pct_str ++ ")", color_class)
    | _, _ => ("No data available", "neutral")

lemma star_ne_digitChar (n : ℕ) : digitChar n ≠ '*' := by
  unfold digitChar
  split_ifs <;> decide

lemma star_not_mem_natStrAux (fuel : ℕ) : ∀ n : ℕ, '*' ∉ natStrAux fuel n := by
  induction fuel with
  | zero =>
    intro n
    simp [natStrAux]
  | succ f ih =>
    intro n
    unfold natStrAux
    split_ifs with h
    · intro hmem
      rw [List.mem_singleton] at hmem
      exact star_ne_digitChar n hmem.symm
    · intro hmem
      rcases List.mem_append.mp hmem with h1 | h2
      · exact ih (n / 10) h1
      · rw [List.mem_singleton] at h2
        exact star_ne_digitChar n h2.symm

lemma star_not_mem_natStr (n : ℕ) : '*' ∉ (natStr n).data :=
  star_not_mem_natStrAux (n + 1) n

lemma star_append (s t : String) (hs : '*' ∉ s.data) (ht : '*' ∉ t.data) :
    '*' ∉ (s ++ t).data := by
  rw [String.data_append]
  intro h
  rcases List.mem_append.mp h with h | h
  · exact hs h
  · exact ht h

lemma star_not_mem_fmtNN (q : ℚ) (d : ℕ) : '*' ∉ (fmtNN q d).data := by
  unfold fmtNN
  split_ifs with h
  · exact star_not_mem_natStr _
  · apply star_append
    · apply star_append
      · exact star_not_mem_natStr _
      · decide
    · intro hmem
      rcases List.mem_append.mp hmem with h1 | h2
      · rw [List.mem_replicate] at h1
        exact absurd h1.2 (by decide)
      · exact star_not_mem_natStr _ h2

lemma star_not_mem_fmtQ (q : ℚ) (d : ℕ) : '*' ∉ (fmtQ q d).data := by
  unfold fmtQ
  split_ifs with h
  · apply star_append
    · decide
    · exact star_not_mem_fmtNN _ _
  · exact star_not_mem_fmtNN _ _

lemma star_not_mem_sign (c : ℚ) : '*' ∉ (if 0 < c then "+" else "").data := by
  split_ifs <;> decide

/-- C8 counterexample: a horizon with an applicable period, non-null
zero change values, and `is_actual_observation = false`
(`is_duplicate = true`) formats as the fixed text `No change (0.00%)`,
which carries no asterisk, contradicting the claimed iff. -/
theorem c8_counterexample :
    (format_change_value (some 0) (some 0) true true).1 = "No change (0.00%)" ∧
    ('*' ∉ ("No change (0.00%)" : String).data) := by
  exact ⟨rfl, by decide⟩

/-- C8 amended: for an applicable horizon with non-null change values
whose absolute change and percent change both have magnitude at least
`1e-6` (so the fixed zero-change display is not used), the formatted text
contains the asterisk marker exactly when the horizon's
`is_actual_observation` flag is false (the formatter is invoked with
`is_duplicate = not has_actual_data`). -/
theorem c8_asterisk (c p : ℚ) (hasActual : Bool)
    (hc : 1 / 1000000 ≤ |c|) (hp : 1 / 1000000 ≤ |p|) :
    ('*' ∈ (format_change_value (some c) (some p) (!hasActual) true).1.data
      ↔ hasActual = false) := by
  have hne : ¬(|c| < 1 / 1000000 ∨ |p| < 1 / 1000000) := by
    intro h
    rcases h with h | h
    · linarith
    · linarith
  have hstarfree : '*' ∉ ((if |c| < 1 / 10 then (if 0 < c then "+" else "") ++ fmtQ c 4
      else if |c| < 1 then (if 0 < c then "+" else "") ++ fmtQ c 3
      else if |c| < 10 then (if 0 < c then "+" else "") ++ fmtQ c 2
      else if |c| < 100 then (if 0 < c then "+" else "") ++ fmtQ c 1
      else (if 0 < c then "+" else "") ++ fmtQ c 0) ++ " (" ++
      ((if 0 < c then "+" else "") ++ fmtQ (p * 100) 2 ++ "%") ++ ")").data := by
    apply star_append
    · apply star_append
      · apply star_append
        · split_ifs <;> exact star_append _ _ (by decide) (star_not_mem_fmtQ _ _)
        · decide
      · apply star_append
        · apply star_append
          · exact star_not_mem_sign c
          · exact star_not_mem_fmtQ _ _
        · decide
    · decide
  cases hasActual with
  | false =>
    unfold format_change_value
    rw [if_neg (by decide : ¬((!(true : Bool)) = true))]
    dsimp only
    rw [if_neg hne, if_pos (by decide : (!(false : Bool)) = true)]
    dsimp only
    constructor
    · intro _
      rfl
    · intro _
      rw [String.data_append]
      apply List.mem_append.mpr
      right
      decide
  | true =>
    unfold format_change_value
    rw [if_neg (by decide : ¬((!(true : Bool)) = true))]
    dsimp only
    rw [if_neg hne, if_neg (by decide : ¬((!(true : Bool)) = true))]
    dsimp only
    constructor
    · intro hmem
      exact absurd hmem hstarfree
    · intro h
      exact absurd h (by decide)

/-- C8 witness: a non-actual (starred) formatted change for concrete
values. -/
theorem c8_witness :
    '*' ∈ (format_change_value (some 1) (some (1 / 10)) (!false) true).1.data :=
  (c8_asterisk 1 (1 / 10) false (by decide) (by decide)).mpr rfl

/-- A metric cell of the validator report; `msqrt x` denotes the square
root of `x` (the `std_dev` metric is irrational in general, so the model
stores the radicand). -/
inductive MVal where
  | mnat (n : ℕ)
  | mnum (q : ℚ)
  | msqrt (q : ℚ)
  | mrange (lo hi : ℤ)
deriving DecidableEq, Repr

/-- The input dataframe of the validator: a column-name list plus rows.
Cells are modelled as (date, price) pairs; when a required column is
missing from `columns` the corresponding cell components are never
consulted by the claims. -/
structure PDF where
  columns : List String
  rows : List Point
deriving DecidableEq, Repr

/-- The report of `DataValidator.validate_dataframe`. -/
structure ValidationResult where
  commodity : String
  valid : Bool
  issues : List String
  metrics : List (String × MVal)
deriving DecidableEq, Repr

/-- `series.min()` (0 on empty input, unreachable in the main branch). -/
def listMin (l : List ℚ) : ℚ :=
  match l with
  | [] => 0
  | h :: t => t.foldl min h

/-- `series.max()`. -/
def listMax (l : List ℚ) : ℚ :=
  match l with
  | [] => 0
  | h :: t => t.foldl max h

/-- `dates.min()`. -/
def listMinZ (l : List ℤ) : ℤ :=
  match l with
  | [] => 0
  | h :: t => t.foldl min h

/-- `dates.max()`. -/
def listMaxZ (l : List ℤ) : ℤ :=
  match l with
  | [] => 0
  | h :: t => t.foldl max h

/-- `series.mean()`. -/
def listMean (l : List ℚ) : ℚ := l.sum / (l.length : ℚ)

/-- `series.median()`: pandas interpolates the two middle values for an
even count. -/
def listMedian (l : List ℚ) : ℚ :=
  if l.length % 2 = 1 then (l.insertionSort (· ≤ ·)).getD (l.length / 2) 0
  else ((l.insertionSort (· ≤ ·)).getD (l.length / 2 - 1) 0 +
    (l.insertionSort (· ≤ ·)).getD (l.length / 2) 0) / 2

/-- Sample variance (`pandas.Series.std` squares to this, ddof = 1); the
single-row case, NaN in pandas, is modelled as 0 — no claim consults it. -/
def listVar (l : List ℚ) : ℚ :=
  if 2 ≤ l.length then
    (l.map (fun x => (x - listMean l) ^ 2)).sum / ((l.length - 1 : ℕ) : ℚ)
  else 0

/-- The main body of `DataValidator.validate_dataframe`
(data_validator.py lines 58-115), reached once the frame is nonempty with
both required columns.  Differences forced by the exact-arithmetic model:
prices are rationals, so the NaN-count check never fires and contributes
no issue; the z-score condition `|x - mean|/std > 3` is encoded
equivalently as `var > 0 ∧ (x - mean)² > 9·var` (for `std = 0` pandas
compares NaN > 3, which is false); a percent change over a zero previous
price is ±infinity when the numerator is nonzero (counts as a large
jump) and NaN when both are zero (does not count). -/
def validatorMain (now : ℤ) (rows : List Point) (name : String) : ValidationResult :=
  let prices := rows.map Point.price
  let dates := rows.map Point.date
  let neg_count := (prices.filter (fun q => decide (q < 0))).length
  let issues1 : List String :=
    if 0 < neg_count then [s!"Contains {neg_count} negative prices"] else []
  let issues2 : List String :=
    if ¬ List.Chain' (· ≤ ·) dates then ["Dates are not in ascending order"] else []
  let duplicate_dates := dates.length - dates.dedup.length
  let issues3 : List String :=
    if 0 < duplicate_dates then [s!"Contains {duplicate_dates} duplicate dates"] else []
  let future_dates := (dates.filter (fun d => decide (now < d))).length
  let issues4 : List String :=
    if 0 < future_dates then [s!"Contains {future_dates} dates in the future"] else []
  let m := listMean prices
  let v := listVar prices
  let outliers := (prices.filter (fun x => decide (0 < v ∧ 9 * v < (x - m) ^ 2))).length
  let issues5 : List String :=
    if 0 < outliers then [s!"Contains {outliers} potential outliers (|z-score| > 3)"]
    else []
  let srows := rows.insertionSort dateLE
  let jumps := ((srows.zip srows.tail).filter (fun ab =>
      decide (if ab.1.price = 0 then ab.2.price ≠ 0
        else (1 : ℚ) / 2 < |ab.2.price / ab.1.price - 1|))).length
  let issues6 : List String :=
    if 0 < jumps then [s!"Contains {jumps} large price jumps (>50% change)"] else []
  let metrics : List (String × MVal) :=
    ([("count", .mnat rows.length), ("min_price", .mnum (listMin prices)),
      ("max_price", .mnum (listMax prices)), ("mean_price", .mnum m),
      ("median_price", .mnum (listMedian prices)), ("std_dev", .msqrt v),
      ("date_range", .mrange (listMinZ dates) (listMaxZ dates))] ++
      (if 0 < outliers then [("outliers", MVal.mnat outliers)] else []) ++
      (if 0 < jumps then [("large_jumps", MVal.mnat jumps)] else []))
  ⟨name, decide (issues1 ++ issues2 ++ issues3 ++ issues4 ++ issues5 ++ issues6 = []),
    issues1 ++ issues2 ++ issues3 ++ issues4 ++ issues5 ++ issues6, metrics⟩

/-- `DataValidator.validate_dataframe` (data_validator.py lines 25-115):
empty-frame and missing-column early returns, then the statistical
checks.  `datetime.now()` is passed in as the day number `now`. -/
def validate_dataframe (now : ℤ) (df : PDF) (name : String) : ValidationResult :=
  if df.rows = [] then ⟨name, false, ["No data available"], []⟩
  else if (["Date", "Price"].filter (fun c => decide (c ∉ df.columns))) ≠ [] then
    ⟨name, false,
      ["Missing required columns: " ++ String.intercalate ", "
        (["Date", "Price"].filter (fun c => decide (c ∉ df.columns)))], []⟩
  else validatorMain now df.rows name

/-- C9 counterexample: the code's issue strings are
`"No data available"` and `"Missing required columns: <names>"`, not the
claimed `"no data available"` and `"missing required fields"`. -/
theorem c9_counterexample :
    (validate_dataframe 0 ⟨["Date", "Price"], []⟩ "c").issues ≠ ["no data available"] ∧
    (validate_dataframe 0 ⟨["Date"], [⟨1, 2⟩]⟩ "c").issues
      ≠ ["missing required fields"] ∧
    (validate_dataframe 0 ⟨["Date", "Price"], []⟩ "c").issues = ["No data available"] ∧
    (validate_dataframe 0 ⟨["Date"], [⟨1, 2⟩]⟩ "c").issues
      = ["Missing required columns: Price"] := by
  exact ⟨by decide, by decide, by decide, by decide⟩

/-- C9 amended: validating an empty frame yields `is_valid = false`,
exactly the single issue `No data available`, and empty metrics;
validating a nonempty frame missing a required column yields
`is_valid = false`, exactly the single issue
`Missing required columns: ` followed by the comma-joined missing names,
and empty metrics.  Neither case raises (the embedded function is
total). -/
theorem c9_validate (now : ℤ) (name : String) (cols : List String) (rows : List Point) :
    (validate_dataframe now ⟨cols, []⟩ name
      = ⟨name, false, ["No data available"], []⟩) ∧
    (rows ≠ [] → ("Date" ∉ cols ∨ "Price" ∉ cols) →
      validate_dataframe now ⟨cols, rows⟩ name
        = ⟨name, false,
            ["Missing required columns: " ++ String.intercalate ", "
              (["Date", "Price"].filter (fun c => decide (c ∉ cols)))], []⟩) := by
  constructor
  · unfold validate_dataframe
    rw [if_pos rfl]
  · intro hr hmiss
    have hne : (["Date", "Price"].filter (fun c => decide (c ∉ cols))) ≠ [] := by
      rcases hmiss with h | h
      · intro hc
        exact List.filter_eq_nil_iff.mp hc "Date" (by simp) (decide_eq_true h)
      · intro hc
        exact List.filter_eq_nil_iff.mp hc "Price" (by simp) (decide_eq_true h)
    unfold validate_dataframe
    dsimp only
    rw [if_neg hr, if_pos hne]

/-- C9 witness: the amended theorem evaluated on an empty frame and on a
one-row frame lacking the `Date` column. -/
theorem c9_witness :
    (validate_dataframe 0 ⟨["Price"], []⟩ "x"
      = ⟨"x", false, ["No data available"], []⟩) ∧
    (validate_dataframe 0 ⟨["Price"], [⟨0, 1⟩]⟩ "x"
      = ⟨"x", false, ["Missing required columns: Date"], []⟩) := by
  refine ⟨(c9_validate 0 "x" ["Price"] []).1, ?_⟩
  have h := (c9_validate 0 "x" ["Price"] [⟨0, 1⟩]).2 (by decide) (Or.inl (by decide))
  exact h.trans (by decide)

end CommodityDash
